import Mathlib

/-!
Shallow embedding of the GIDatingServiceCDK repository: the stage
configuration table, the stack-naming helper functions, the website
pipeline's stage/action structure, the stage-conditional resource
declarations of the domain-configuration and contact-form stacks, and the
control flow of the bootstrap script `scripts/automate_deployment.sh`.
All definitions are translated from the TypeScript and shell sources.
-/

namespace GIDating

/- ── utils/constants.ts ───────────────────────────────────────────── -/

def SERVICE_STACK : String := "ServiceStack"

def VPC_STACK : String := "VpcStack"

def DEVICE_FARM_STACK : String := "DeviceFarmStack"

def DEPLOYMENT_BUCKET_STACK : String := "DeploymentBucketStack"

def FRONT_END : String := "FrontEnd"

def BACK_END : String := "BackEnd"

def WEBSITE : String := "Website"

def DOMAIN_NAME : String := "qandmedating.com"

/-- From utils/contactFormatUtils.ts: `CONTACT_FORM_STACK = 'ContactFormStack'`
(the constant `utils.ts` imports under the same name). -/
def CONTACT_FORM_STACK : String := "ContactFormStack"

/- ── utils/config.ts ──────────────────────────────────────────────── -/

/-- `STAGES.BETA` from utils/config.ts. -/
def STAGES_BETA : String := "Beta"

/-- `STAGES.PROD` from utils/config.ts. -/
def STAGES_PROD : String := "Prod"

/-- `REGIONS.US_WEST_2` from utils/config.ts. -/
def REGIONS_US_WEST_2 : String := "us-west-2"

/-- Modelled from the spec: utils/accounts.ts is not in the snapshot; it
exports the beta AWS account id as an opaque string. No claim depends on
its value. -/
def betaAccountId : String := "betaAccountId"

/-- Modelled from the spec: utils/accounts.ts is not in the snapshot; it
exports the prod AWS account id as an opaque string. No claim depends on
its value. -/
def prodAccountId : String := "prodAccountId"

/-- `StageConfigInterface` from utils/config.ts. -/
structure StageConfig where
  accountId : String
  stage : String
  region : String
  isProd : Bool
  domainName : Option String
deriving Repr, DecidableEq

/-- `stageConfigurationList` from utils/config.ts: the beta record first,
then the prod record, both in us-west-2 with the qandmedating.com domain. -/
def stageConfigurationList : List StageConfig :=
  [ { accountId := betaAccountId
      stage := STAGES_BETA
      region := REGIONS_US_WEST_2
      isProd := false
      domainName := some DOMAIN_NAME },
    { accountId := prodAccountId
      stage := STAGES_PROD
      region := REGIONS_US_WEST_2
      isProd := true
      domainName := some DOMAIN_NAME } ]

/- ── utils/utils.ts naming helpers ─────────────────────────────────── -/

/-- Embedding of the TypeScript `region.replace` with the global hyphen
regex and the empty replacement: remove every hyphen from the string. -/
def removeDashes (s : String) : String :=
  String.mk (s.data.filter (fun c => c ≠ '-'))

def createServiceStackName (stage region : String) : String :=
  stage ++ removeDashes region ++ SERVICE_STACK

def createVpcStackName (stage region account : String) : String :=
  account ++ stage ++ removeDashes region ++ VPC_STACK

def createDeviceFarmStackName (stage region account : String) : String :=
  account ++ stage ++ removeDashes region ++ DEVICE_FARM_STACK

def createDeploymentBucketStackName (stage region account : String) : String :=
  account ++ stage ++ removeDashes region ++ DEPLOYMENT_BUCKET_STACK

def createWebsiteBucketStackName (stage region pre : String) : String :=
  pre ++ stage ++ region ++ "BucketStack"

def createDomainConfigStackName (stage region pre domain : String) : String :=
  pre ++ stage ++ region ++ "Domain" ++ domain ++ "Stack"

def createContactFormStackName (stage region : String) : String :=
  stage ++ removeDashes region ++ CONTACT_FORM_STACK

/-- Embedding of `DOMAIN_NAME.replace` with the global dot regex and the
hyphen replacement, as passed to `createDomainConfigStackName` in app.ts. -/
def dotsToDashes (s : String) : String :=
  String.mk (s.data.map (fun c => if c = '.' then '-' else c))

/-- The seven resource kinds whose stack names the naming helpers produce. -/
inductive ResourceKind where
  | service
  | vpc
  | deviceFarm
  | deploymentBucket
  | websiteBucket
  | domainConfig
  | contactForm
deriving Repr, DecidableEq

instance : Fintype ResourceKind :=
  ⟨⟨{ResourceKind.service, ResourceKind.vpc, ResourceKind.deviceFarm,
     ResourceKind.deploymentBucket, ResourceKind.websiteBucket,
     ResourceKind.domainConfig, ResourceKind.contactForm}, by decide⟩,
   fun k => by cases k <;> decide⟩

/-- The stack name app.ts computes for a (stage, region, resource-kind)
tuple, with the auxiliary arguments app.ts passes: `BACK_END` for the VPC
stack, `FRONT_END` for the device-farm and deployment-bucket stacks,
`WEBSITE` for the website-bucket and domain-config stacks, and the
dot-to-dash domain for the domain-config stack. -/
def stackNameFor (stage region : String) : ResourceKind → String
  | ResourceKind.service => createServiceStackName stage region
  | ResourceKind.vpc => createVpcStackName stage region BACK_END
  | ResourceKind.deviceFarm => createDeviceFarmStackName stage region FRONT_END
  | ResourceKind.deploymentBucket => createDeploymentBucketStackName stage region FRONT_END
  | ResourceKind.websiteBucket => createWebsiteBucketStackName stage region WEBSITE
  | ResourceKind.domainConfig =>
      createDomainConfigStackName stage region WEBSITE (dotsToDashes DOMAIN_NAME)
  | ResourceKind.contactForm => createContactFormStackName stage region

/- ── app.ts per-stage config lists ─────────────────────────────────── -/

/-- `WebsiteStackConfigInterface` from utils/config.ts. -/
structure WebsiteStackConfig where
  config : StageConfig
  websiteBucketArn : String
  websiteBucketName : String
  distributionId : String
  distributionDomainName : String
deriving Repr, DecidableEq

/-- The entry app.ts pushes onto `websiteServiceStackList` for one stage
record: bucket name `website-<stage lowercased>-<account>-<region>` and the
shared CloudFront distribution identifiers (both branches of app.ts's
`stageIndex` conditional push identical values). -/
def mkWebsiteStackConfig (c : StageConfig) : WebsiteStackConfig :=
  let bucket := "website-" ++ c.stage.toLower ++ "-" ++ c.accountId ++ "-" ++ c.region
  { config := c
    websiteBucketArn := "arn:aws:s3:::" ++ bucket
    websiteBucketName := bucket
    distributionId := "E35HC17VOZGC7F"
    distributionDomainName := "https://de833z6icjhaj.cloudfront.net" }

/-- `websiteServiceStackList` from app.ts: one entry per record of
`stageConfigurationList`, pushed in list order. -/
def websiteServiceStackList : List WebsiteStackConfig :=
  stageConfigurationList.map mkWebsiteStackConfig

/-- `WebsitePipelineStack`'s constructor reads its input positionally:
`const betaConfig = props.stacksToDeploy[0]`. -/
def websitePipelineBetaConfig (stacksToDeploy : List WebsiteStackConfig) :
    Option WebsiteStackConfig :=
  stacksToDeploy[0]?

/-- `WebsitePipelineStack`'s constructor reads its input positionally:
`const prodConfig = props.stacksToDeploy[1]`. -/
def websitePipelineProdConfig (stacksToDeploy : List WebsiteStackConfig) :
    Option WebsiteStackConfig :=
  stacksToDeploy[1]?

/- ── websitePipelineStack.ts: stages and actions ───────────────────── -/

def WebsitePipelineStackName : String := "WebsitePipelineStack"

def TEMPLATE_ENDING : String := ".template.json"

/-- The kinds of CodePipeline actions the website pipeline declares. -/
inductive ActionKind where
  | gitHubSource
  | codeBuild
  | cfnCreateUpdate
  | s3Deploy
  | manualApproval
deriving Repr, DecidableEq

/-- One CodePipeline action as declared in websitePipelineStack.ts:
its name, kind, optional explicit `runOrder`, the CloudFormation stack it
deploys (for create/update actions), the CodeBuild project it runs (for
build actions), and the account of the cross-account role it is given
(for actions that pass `role:`). -/
structure Action where
  actionName : String
  kind : ActionKind
  runOrder : Option Nat
  stackName : Option String
  project : Option String
  roleAccountId : Option String
deriving Repr, DecidableEq

/-- One pipeline stage: its `stageName` and ordered action list. -/
structure StageDef where
  stageName : String
  actions : List Action
deriving Repr, DecidableEq

/-- `PipelineStageFactory.createSourceStage`. -/
def createSourceStage : StageDef :=
  { stageName := "Source"
    actions :=
      [ { actionName := "GIDatingWebsite", kind := ActionKind.gitHubSource
          runOrder := none, stackName := none, project := none, roleAccountId := none },
        { actionName := "GIDatingServiceCDK", kind := ActionKind.gitHubSource
          runOrder := none, stackName := none, project := none, roleAccountId := none } ] }

/-- `PipelineStageFactory.createBuildStage`. -/
def createBuildStage : StageDef :=
  { stageName := "Build"
    actions :=
      [ { actionName := "CDK_Synth", kind := ActionKind.codeBuild
          runOrder := none, stackName := none, project := some "cdkBuild", roleAccountId := none },
        { actionName := "Website_Build", kind := ActionKind.codeBuild
          runOrder := none, stackName := none, project := some "websiteBuild", roleAccountId := none } ] }

/-- `PipelineStageFactory.createPipelineUpdateStage` (self-mutate). -/
def createPipelineUpdateStage : StageDef :=
  { stageName := "Pipeline_Update"
    actions :=
      [ { actionName := "SelfMutate", kind := ActionKind.cfnCreateUpdate
          runOrder := none, stackName := some WebsitePipelineStackName
          project := none, roleAccountId := none } ] }

/-- `PipelineStageFactory.createBetaDeployStage`, parameterised like the
source by the beta account configuration (of which only the account id is
relevant to the embedded fields). -/
def createBetaDeployStage (betaAccount : String) : StageDef :=
  { stageName := "Deploy_Beta"
    actions :=
      [ { actionName := "PublishAssets", kind := ActionKind.codeBuild
          runOrder := some 1, stackName := none
          project := some "cdkPublishBeta", roleAccountId := none },
        { actionName := "DeployWebsiteBucket", kind := ActionKind.cfnCreateUpdate
          runOrder := some 2, stackName := some "WebsiteBetaus-west-2BucketStack"
          project := none, roleAccountId := some betaAccount },
        { actionName := "DeployBetaDomainConfig", kind := ActionKind.cfnCreateUpdate
          runOrder := some 3, stackName := some "WebsiteBetaus-west-2Domainqandmedating-comStack"
          project := none, roleAccountId := some betaAccount },
        { actionName := "DeployBetaContactForm", kind := ActionKind.cfnCreateUpdate
          runOrder := some 4, stackName := some "Betauswest2ContactFormStack"
          project := none, roleAccountId := some betaAccount },
        { actionName := "DeployWebsiteContent", kind := ActionKind.s3Deploy
          runOrder := some 5, stackName := none
          project := none, roleAccountId := some betaAccount },
        { actionName := "ManualCacheInvalidation", kind := ActionKind.manualApproval
          runOrder := some 6, stackName := none
          project := none, roleAccountId := none } ] }

/-- `PipelineStageFactory.createApprovalStage`. -/
def createApprovalStage : StageDef :=
  { stageName := "Manual_Approval"
    actions :=
      [ { actionName := "Approve", kind := ActionKind.manualApproval
          runOrder := none, stackName := none, project := none, roleAccountId := none } ] }

/-- `PipelineStageFactory.createProdDeployStage`. -/
def createProdDeployStage (prodAccount : String) : StageDef :=
  { stageName := "Deploy_Prod"
    actions :=
      [ { actionName := "PublishAssets", kind := ActionKind.codeBuild
          runOrder := some 1, stackName := none
          project := some "cdkPublishProd", roleAccountId := none },
        { actionName := "DeployWebsiteBucket", kind := ActionKind.cfnCreateUpdate
          runOrder := some 2, stackName := some "WebsiteProdus-west-2BucketStack"
          project := none, roleAccountId := some prodAccount },
        { actionName := "DeployProdDomainConfig", kind := ActionKind.cfnCreateUpdate
          runOrder := some 3, stackName := some "WebsiteProdus-west-2Domainqandmedating-comStack"
          project := none, roleAccountId := some prodAccount },
        { actionName := "DeployProdContactForm", kind := ActionKind.cfnCreateUpdate
          runOrder := some 4, stackName := some "Produswest2ContactFormStack"
          project := none, roleAccountId := some prodAccount },
        { actionName := "DeployWebsiteContent", kind := ActionKind.s3Deploy
          runOrder := some 5, stackName := none
          project := none, roleAccountId := some prodAccount },
        { actionName := "ManualCacheInvalidation", kind := ActionKind.manualApproval
          runOrder := some 6, stackName := none
          project := none, roleAccountId := none } ] }

/-- The `stages:` list of the `codepipeline.Pipeline` built in
`WebsitePipelineStack`'s constructor, in source order. -/
def websitePipelineStages (betaAccount prodAccount : String) : List StageDef :=
  [ createSourceStage,
    createBuildStage,
    createPipelineUpdateStage,
    createBetaDeployStage betaAccount,
    createApprovalStage,
    createProdDeployStage prodAccount ]

/- ── DomainConfigurationStack.formatDomainName ─────────────────────── -/

/-- `DomainConfigurationStack.formatDomainName` from
stacks/website/DomainConfigurationStack.ts:
`stageName === STAGES.PROD ? domainName : stageName.toLowerCase() + '.' + domainName`. -/
def formatDomainName (domainName stageName : String) : String :=
  if stageName = STAGES_PROD then domainName
  else stageName.toLower ++ "." ++ domainName

/- ── DomainConfigurationStack constructor resources ────────────────── -/

/-- The resources the `DomainConfigurationStack` constructor declares,
abstracted to the granularity the claims need. -/
inductive DomainResource where
  | hostedZone (zoneName : String)
  | nsDelegationRecord (recordName : String)
  | outputRes (outputName : String)
  | originAccessIdentity
  | loggingResources
  | cloudFrontFunctions
  | distribution
  | dnsRecords
deriving Repr, DecidableEq

/-- `DomainConfigurationStack.createSubdomainDelegation`: the NS record
delegating the `beta` subdomain (plus its marker output) is declared only
when the stage is Prod. -/
def createSubdomainDelegation (stageName : String) : List DomainResource :=
  if stageName = STAGES_PROD then
    [ DomainResource.nsDelegationRecord "beta",
      DomainResource.outputRes "BetaSubdomainDelegationCreated" ]
  else []

/-- `shouldDeployDistribution` from the `DomainConfigurationStack`
constructor: always deploy for non-Prod stages; for Prod follow the
`deployDistribution` flag, defaulting to true when it is undefined. -/
def shouldDeployDistribution (stageName : String) (deployDistribution : Option Bool) : Bool :=
  decide (stageName ≠ STAGES_PROD) ||
    (match deployDistribution with
     | some b => b
     | none => true)

/-- The resource list the `DomainConfigurationStack` constructor declares:
the hosted zone and the (conditional) beta-subdomain delegation always come
first; then either the full distribution resources or, when the
distribution is skipped, only the hosted-zone outputs and a status output. -/
def domainConfigResources (stageName domainName : String)
    (deployDistribution : Option Bool) : List DomainResource :=
  let base := DomainResource.hostedZone domainName :: createSubdomainDelegation stageName
  if shouldDeployDistribution stageName deployDistribution then
    base ++
      [ DomainResource.originAccessIdentity,
        DomainResource.loggingResources,
        DomainResource.cloudFrontFunctions,
        DomainResource.distribution,
        DomainResource.dnsRecords ]
  else
    base ++
      [ DomainResource.outputRes "HostedZoneOutputs",
        DomainResource.outputRes "DistributionStatus" ]

/- ── ContactFormStack table ────────────────────────────────────────── -/

/-- CDK removal policies, as used by `ContactFormStack`. -/
inductive RemovalPolicy where
  | retain
  | destroy
deriving Repr, DecidableEq

/-- The fields of the DynamoDB table declaration in `ContactFormStack`
that depend on the stage. -/
structure ContactFormTable where
  tableName : String
  removalPolicy : RemovalPolicy
  pointInTimeRecovery : Bool
deriving Repr, DecidableEq

/-- The `ContactFormTable` DynamoDB table from
stacks/website/ContactFormStack.ts: RETAIN and point-in-time recovery only
when `props.stageName === 'Prod'`, DESTROY otherwise. -/
def contactFormTable (stageName : String) : ContactFormTable :=
  { tableName := "ContactForm-" ++ stageName
    removalPolicy := if stageName = "Prod" then RemovalPolicy.retain else RemovalPolicy.destroy
    pointInTimeRecovery := decide (stageName = "Prod") }

/- ── scripts/automate_deployment.sh ────────────────────────────────── -/

/-- One observable step of the bootstrap script. AWS CLI invocations are
`awsDeploy` (a `cloudformation deploy` with a stack name, a profile, and a
flag recording whether the captured key ARNs are passed as parameter
overrides) and `awsDescribe` (a `cloudformation describe-stacks`);
`cdkDeploy` is an `npx cdk deploy`; `sh` covers local file commands; the
printed messages are abbreviated to their identifying prefix. -/
inductive Event where
  | printMsg (msg : String)
  | sh (cmd : String)
  | npm (cmd : String)
  | awsDeploy (stackName profile : String) (withKeyArns : Bool)
  | awsDescribe (stackName profile : String)
  | cdkDeploy (stackName : String)
  | git
deriving Repr, DecidableEq

/-- Whether an event is an AWS CLI invocation (`aws ...`). -/
def Event.isAwsCli : Event → Bool
  | Event.awsDeploy _ _ _ => true
  | Event.awsDescribe _ _ => true
  | _ => false

/-- Whether an event is a `cloudformation deploy` that passes the captured
key ARNs as parameter overrides (the role-patching step). -/
def Event.patchesRoles : Event → Bool
  | Event.awsDeploy _ _ withKeyArns => withKeyArns
  | _ => false

/-- Whether an event is a printed message. -/
def Event.isPrint : Event → Bool
  | Event.printMsg _ => true
  | _ => false

/-- The outcome of a run of the script: the ordered trace of observable
steps and the process exit status. -/
structure ScriptRun where
  events : List Event
  exitCode : Nat
deriving Repr, DecidableEq

/-- The bash test `[[ -z "${X}" ]]`: true when the variable is unset or
holds the empty string. -/
def isBlank : Option String → Bool
  | none => true
  | some s => s.isEmpty

/-- Control flow of scripts/automate_deployment.sh. Environment variables
are `Option String` (unset or a value); the three key-ARN parameters model
what the `awk` scrape of each deploy output assigns to `KEY_ARN`,
`FRONT_END_KEY_ARN` and `WEBSITE_KEY_ARN` (empty string when nothing was
captured). The bash builtin `exit` with no operand exits with the status
of the last executed command; on every abort path that command is a
`printf` that succeeded, so the modelled exit status is 0. Local commands
are modelled as succeeding. -/
def automateDeployment (pipelineAcct betaAcct prodAcct : Option String)
    (keyArn frontEndKeyArn websiteKeyArn : String) : ScriptRun :=
  if isBlank pipelineAcct || isBlank betaAcct || isBlank prodAcct then
    { events :=
        [ Event.printMsg "Please set PIPELINE_ACCOUNT_ID, BETA_ACCOUNT_ID, and PROD_ACCOUNT_ID",
          Event.printMsg "PIPELINE_ACCOUNT_ID =",
          Event.printMsg "BETA_ACCOUNT_ID =",
          Event.printMsg "PROD_ACCOUNT_ID =" ]
      exitCode := 0 }
  else
    let roleSetup : List Event :=
      [ Event.printMsg "Deploying roles to BETA and Prod",
        Event.awsDeploy "CodePipelineCrossAccountRole" "beta" false,
        Event.awsDeploy "CloudFormationDeploymentRole" "beta" false,
        Event.awsDeploy "CodePipelineCrossAccountRole" "prod" false,
        Event.awsDeploy "CloudFormationDeploymentRole" "prod" false,
        Event.printMsg "Building CDK app",
        Event.npm "install",
        Event.npm "audit fix",
        Event.npm "run build",
        Event.sh "rm -rf cdk.out",
        Event.sh "mkdir -p cdk.out",
        Event.printMsg "Deploying Cross-Account Deployment Pipeline Stack",
        Event.sh "rm -rf .cdk_output .cfn_outputs",
        Event.cdkDeploy "PipelineDeploymentStack",
        Event.sh "sed Outputs section" ]
    if keyArn.isEmpty then
      { events := roleSetup ++
          [Event.printMsg "Something went wrong - no Key ARN from the CDK Pipeline deployment"]
        exitCode := 0 }
    else
      let frontendPhase : List Event :=
        [ Event.sh "rm -rf .cdk_output .cfn_outputs",
          Event.cdkDeploy "FrontEndPipelineDeploymentStack",
          Event.sh "sed Outputs section" ]
      if frontEndKeyArn.isEmpty then
        { events := roleSetup ++ frontendPhase ++
            [Event.printMsg "Something went wrong - no Key ARN from the Frontend CDK Pipeline deployment"]
          exitCode := 0 }
      else
        let websitePhase : List Event :=
          [ Event.sh "rm -rf .cdk_output .cfn_outputs",
            Event.cdkDeploy "WebsitePipelineStack",
            Event.sh "sed Outputs section" ]
        if websiteKeyArn.isEmpty then
          { events := roleSetup ++ frontendPhase ++ websitePhase ++
              [Event.printMsg "Something went wrong - no Key ARN from the Website CDK Pipeline deployment"]
            exitCode := 0 }
        else
          { events := roleSetup ++ frontendPhase ++ websitePhase ++
              [ Event.printMsg "Updating roles with policies in BETA and Prod",
                Event.awsDeploy "CodePipelineCrossAccountRole" "beta" true,
                Event.awsDeploy "CloudFormationDeploymentRole" "beta" true,
                Event.awsDeploy "CloudFormationDeploymentRole" "prod" true,
                Event.awsDeploy "CodePipelineCrossAccountRole" "prod" true,
                Event.printMsg "Committing code to repository",
                Event.git,
                Event.printMsg "Use the following commands to get the Endpoints",
                Event.printMsg "Website URLs:",
                Event.awsDescribe "WebsiteBetaus-west-2BucketStack" "beta",
                Event.printMsg "Domain Configuration (Beta only):",
                Event.awsDescribe "WebsiteBetaus-west-2Domainqandmedating-comStack" "beta",
                Event.awsDescribe "WebsiteBetaus-west-2Domainqandmedating-comStack" "beta",
                Event.sh "rm -f .cdk_output .cfn_outputs",
                Event.printMsg "To check certificate validation status" ]
            exitCode := 0 }

/- ── Theorems ──────────────────────────────────────────────────────── -/

/-- Helper: removing hyphens is idempotent, so a helper that embeds the
hyphen-stripped region is unchanged when the region is pre-stripped. -/
theorem removeDashes_removeDashes (r : String) :
    removeDashes (removeDashes r) = removeDashes r := by
  simp [removeDashes, List.filter_filter]

/-- C4: the naming helpers produce exactly the literal outputs the spec
gives for the Beta and Prod service stacks and the FrontEnd Beta device
farm stack. -/
theorem C4_naming_literals :
    createServiceStackName "Beta" "us-west-2" = "Betauswest2ServiceStack" ∧
    createServiceStackName "Prod" "us-west-2" = "Produswest2ServiceStack" ∧
    createDeviceFarmStackName "Beta" "us-west-2" "FrontEnd" =
      "FrontEndBetauswest2DeviceFarmStack" := by
  refine ⟨?_, ?_, ?_⟩ <;> decide

/-- C3: in `stageConfigurationList` the record at index 0 carries stage
label "Beta" with `isProd = false` and the record at index 1 carries
"Prod" with `isProd = true`; consequently `WebsitePipelineStack`'s
positional reads of the app's per-stage list (`stacksToDeploy[0]` and
`stacksToDeploy[1]`) receive the beta and the prod configuration
respectively. -/
theorem C3_stage_positions :
    stageConfigurationList.map (fun c => (c.stage, c.isProd)) =
      [("Beta", false), ("Prod", true)] ∧
    (websitePipelineBetaConfig websiteServiceStackList).map
        (fun c => (c.config.stage, c.config.isProd)) = some ("Beta", false) ∧
    (websitePipelineProdConfig websiteServiceStackList).map
        (fun c => (c.config.stage, c.config.isProd)) = some ("Prod", true) := by
  refine ⟨?_, ?_, ?_⟩ <;> decide

/-- C5: over the stage records of the configuration table and the seven
resource kinds, the stack-naming helpers (with the auxiliary arguments
app.ts passes) are injective on (stage, region, resource-kind): distinct
tuples give distinct stack names. -/
theorem C5_names_injective :
    ∀ c1 ∈ stageConfigurationList, ∀ c2 ∈ stageConfigurationList,
      ∀ k1 k2 : ResourceKind,
        (c1.stage, c1.region, k1) ≠ (c2.stage, c2.region, k2) →
        stackNameFor c1.stage c1.region k1 ≠ stackNameFor c2.stage c2.region k2 := by
  decide

theorem C5_names_injective_witness :
    stackNameFor STAGES_BETA REGIONS_US_WEST_2 ResourceKind.service ≠
      stackNameFor STAGES_PROD REGIONS_US_WEST_2 ResourceKind.service :=
  C5_names_injective
    { accountId := betaAccountId, stage := STAGES_BETA, region := REGIONS_US_WEST_2,
      isProd := false, domainName := some DOMAIN_NAME }
    (by decide)
    { accountId := prodAccountId, stage := STAGES_PROD, region := REGIONS_US_WEST_2,
      isProd := true, domainName := some DOMAIN_NAME }
    (by decide)
    ResourceKind.service ResourceKind.service (by decide)

/-- C6: the service, VPC, device-farm, deployment-bucket and contact-form
helpers embed the region with every hyphen removed (each is invariant
under pre-stripping the region, and the stripped region contains no
hyphen), while the website-bucket and domain-config helpers embed the
region verbatim (the raw region is an infix of the produced name). -/
theorem C6_hyphen_handling (s r a p d : String) :
    createServiceStackName s r = createServiceStackName s (removeDashes r) ∧
    createVpcStackName s r a = createVpcStackName s (removeDashes r) a ∧
    createDeviceFarmStackName s r a = createDeviceFarmStackName s (removeDashes r) a ∧
    createDeploymentBucketStackName s r a =
      createDeploymentBucketStackName s (removeDashes r) a ∧
    createContactFormStackName s r = createContactFormStackName s (removeDashes r) ∧
    '-' ∉ (removeDashes r).data ∧
    List.IsInfix r.data (createWebsiteBucketStackName s r p).data ∧
    List.IsInfix r.data (createDomainConfigStackName s r p d).data := by
  refine ⟨?_, ?_, ?_, ?_, ?_, ?_, ?_, ?_⟩
  · simp [createServiceStackName, removeDashes_removeDashes]
  · simp [createVpcStackName, removeDashes_removeDashes]
  · simp [createDeviceFarmStackName, removeDashes_removeDashes]
  · simp [createDeploymentBucketStackName, removeDashes_removeDashes]
  · simp [createContactFormStackName, removeDashes_removeDashes]
  · simp [removeDashes]
  · exact ⟨(p ++ s).data, "BucketStack".data, by
      simp [createWebsiteBucketStackName, String.data_append]⟩
  · exact ⟨(p ++ s).data, ("Domain" ++ d ++ "Stack").data, by
      simp [createDomainConfigStackName, String.data_append]⟩

/-- C10: `formatDomainName` returns the domain unchanged for the Prod
stage and prefixes the lowercased stage plus a dot for every other stage;
in particular the Beta site's full domain is "beta." prefixed to the apex
domain. -/
theorem C10_formatDomainName (d stage : String) (h : stage ≠ "Prod") :
    formatDomainName d "Prod" = d ∧
    formatDomainName d stage = stage.toLower ++ "." ++ d ∧
    formatDomainName d "Beta" = "beta." ++ d := by
  refine ⟨?_, ?_, ?_⟩
  · simp [formatDomainName, STAGES_PROD]
  · simp [formatDomainName, STAGES_PROD, h]
  · have hBeta : ("Beta" : String) ≠ STAGES_PROD := by decide
    have hlow : ("Beta" : String).toLower ++ "." ++ d = "beta." ++ d := by
      have : ("Beta" : String).toLower = "beta" := by
        simp [String.toLower, String.map_eq]
      rw [this]
      rw [String.append_assoc]
      rfl
    simp [formatDomainName, hBeta]
    simpa using hlow

theorem C10_formatDomainName_witness :
    ("Beta" : String) ≠ "Prod" ∧
    (formatDomainName "qandmedating.com" "Prod" = "qandmedating.com" ∧
     formatDomainName "qandmedating.com" "Beta" =
       ("Beta" : String).toLower ++ "." ++ "qandmedating.com" ∧
     formatDomainName "qandmedating.com" "Beta" = "beta." ++ "qandmedating.com") :=
  ⟨by decide, C10_formatDomainName "qandmedating.com" "Beta" (by decide)⟩

/-- C7: the website pipeline's stage list is exactly Source, Build,
Pipeline_Update, Deploy_Beta, Manual_Approval, Deploy_Prod in that order,
and the stage between the beta and prod deployments is the Manual_Approval
stage, whose sole action is a manual approval. -/
theorem C7_pipeline_stages (betaAct prodAct : String) :
    (websitePipelineStages betaAct prodAct).map StageDef.stageName =
      ["Source", "Build", "Pipeline_Update", "Deploy_Beta", "Manual_Approval", "Deploy_Prod"] ∧
    (websitePipelineStages betaAct prodAct)[4]? = some createApprovalStage ∧
    createApprovalStage.actions.map Action.kind = [ActionKind.manualApproval] := by
  refine ⟨rfl, rfl, rfl⟩

/-- C8: Deploy_Beta carries the six actions with explicit runOrders 1-6 in
the stated sequence (publish assets, website bucket, domain config,
contact form, website content, manual cache invalidation), and Deploy_Prod
carries the same six action kinds with the same runOrders, its role-using
actions targeting the prod account and its publish action using the prod
publish project. -/
theorem C8_deploy_runOrders (betaAct prodAct : String) :
    (createBetaDeployStage betaAct).actions.map
        (fun a => (a.actionName, a.kind, a.runOrder)) =
      [ ("PublishAssets", ActionKind.codeBuild, some 1),
        ("DeployWebsiteBucket", ActionKind.cfnCreateUpdate, some 2),
        ("DeployBetaDomainConfig", ActionKind.cfnCreateUpdate, some 3),
        ("DeployBetaContactForm", ActionKind.cfnCreateUpdate, some 4),
        ("DeployWebsiteContent", ActionKind.s3Deploy, some 5),
        ("ManualCacheInvalidation", ActionKind.manualApproval, some 6) ] ∧
    (createProdDeployStage prodAct).actions.map (fun a => (a.kind, a.runOrder)) =
      (createBetaDeployStage betaAct).actions.map (fun a => (a.kind, a.runOrder)) ∧
    (createProdDeployStage prodAct).actions.filterMap Action.roleAccountId =
      [prodAct, prodAct, prodAct, prodAct] ∧
    (createProdDeployStage prodAct).actions.filterMap Action.project =
      ["cdkPublishProd"] := by
  refine ⟨rfl, rfl, rfl, rfl⟩

/-- C9: the beta-subdomain NS delegation record is declared by the
DomainConfigurationStack constructor exactly when the stage is Prod
(whatever the deployDistribution flag), and the ContactFormStack table's
removal policy is RETAIN exactly when the stage is Prod and DESTROY
otherwise. -/
theorem C9_stage_conditionals (s d : String) (flag : Option Bool) (h : s ≠ "Prod") :
    (∀ s2, (DomainResource.nsDelegationRecord "beta" ∈ domainConfigResources s2 d flag ↔
      s2 = "Prod")) ∧
    (∀ s2, ((contactFormTable s2).removalPolicy = RemovalPolicy.retain ↔ s2 = "Prod")) ∧
    (contactFormTable s).removalPolicy = RemovalPolicy.destroy := by
  refine ⟨?_, ?_, ?_⟩
  · intro s2
    constructor
    · intro hmem
      by_contra hs
      cases hsd : shouldDeployDistribution s2 flag <;>
        simp [domainConfigResources, createSubdomainDelegation, STAGES_PROD, hs, hsd] at hmem
    · intro hs
      subst hs
      cases hsd : shouldDeployDistribution "Prod" flag <;>
        simp [domainConfigResources, createSubdomainDelegation, STAGES_PROD, hsd]
  · intro s2
    constructor
    · intro hret
      by_contra hs
      simp [contactFormTable, hs] at hret
    · intro hs
      simp [contactFormTable, hs]
  · simp [contactFormTable, h]

theorem C9_stage_conditionals_witness :
    ("Beta" : String) ≠ "Prod" ∧
    ((∀ s2, (DomainResource.nsDelegationRecord "beta" ∈
        domainConfigResources s2 DOMAIN_NAME none ↔ s2 = "Prod")) ∧
     (∀ s2, ((contactFormTable s2).removalPolicy = RemovalPolicy.retain ↔ s2 = "Prod")) ∧
     (contactFormTable "Beta").removalPolicy = RemovalPolicy.destroy) :=
  ⟨by decide, C9_stage_conditionals "Beta" DOMAIN_NAME none (by decide)⟩

/-- C1 counterexample: with PIPELINE_ACCOUNT_ID unset and the other two
set, the script aborts before any AWS CLI call, but `exit` with no operand
propagates the status of the preceding successful printf, so the process
exit status is 0 — not non-zero as the claim states. -/
theorem C1_env_guard_counterexample :
    isBlank none = true ∧
    ¬ ((automateDeployment none (some "222222222222") (some "333333333333")
          "key-arn" "fe-key-arn" "web-key-arn").exitCode ≠ 0) := by
  refine ⟨rfl, ?_⟩
  intro hne
  exact hne (by decide)

/-- C1 (amended): when any of the three account-id environment variables
is unset or empty, the script prints its guard messages and aborts with
exit status 0 (bash `exit` with no operand returns the status of the last
command, the successful printf), attempting no AWS CLI call, no cdk
deploy, no npm step and no git command. -/
theorem C1_env_guard (p b pr : Option String) (k f w : String)
    (h : (isBlank p || isBlank b || isBlank pr) = true) :
    (automateDeployment p b pr k f w).exitCode = 0 ∧
    (automateDeployment p b pr k f w).events ≠ [] ∧
    (automateDeployment p b pr k f w).events.all Event.isPrint = true ∧
    (automateDeployment p b pr k f w).events.all (fun e => ! Event.isAwsCli e) = true := by
  refine ⟨?_, ?_, ?_, ?_⟩ <;> simp [automateDeployment, h, Event.isPrint, Event.isAwsCli]

theorem C1_env_guard_witness :
    ((isBlank (some "") || isBlank (some "222222222222") || isBlank none) = true) ∧
    ((automateDeployment (some "") (some "222222222222") none "k" "f" "w").exitCode = 0 ∧
     (automateDeployment (some "") (some "222222222222") none "k" "f" "w").events ≠ [] ∧
     (automateDeployment (some "") (some "222222222222") none "k" "f" "w").events.all
       Event.isPrint = true ∧
     (automateDeployment (some "") (some "222222222222") none "k" "f" "w").events.all
       (fun e => ! Event.isAwsCli e) = true) :=
  ⟨by decide, C1_env_guard (some "") (some "222222222222") none "k" "f" "w" (by decide)⟩

/-- C2: when the environment guard passes but the scraped KEY_ARN is
empty, the script's trace ends at the error message printed after the
pipeline deploy: no role-patching `cloudformation deploy` passing the key
ARNs is ever executed, and neither the frontend nor the website pipeline
deploy is reached. -/
theorem C2_keyArn_guard (p b pr : Option String) (f w : String)
    (hp : isBlank p = false) (hb : isBlank b = false) (hpr : isBlank pr = false) :
    (automateDeployment p b pr "" f w).events.all
        (fun e => ! Event.patchesRoles e) = true ∧
    (automateDeployment p b pr "" f w).events.getLast? =
      some (Event.printMsg
        "Something went wrong - no Key ARN from the CDK Pipeline deployment") ∧
    Event.cdkDeploy "FrontEndPipelineDeploymentStack" ∉
      (automateDeployment p b pr "" f w).events ∧
    Event.cdkDeploy "WebsitePipelineStack" ∉
      (automateDeployment p b pr "" f w).events := by
  have hcond : (isBlank p || isBlank b || isBlank pr) = false := by
    simp [hp, hb, hpr]
  have hempty : ("" : String).isEmpty = true := by decide
  refine ⟨?_, ?_, ?_, ?_⟩ <;>
    simp [automateDeployment, hcond, hempty, Event.patchesRoles]

theorem C2_keyArn_guard_witness :
    (isBlank (some "111111111111") = false ∧ isBlank (some "222222222222") = false ∧
     isBlank (some "333333333333") = false) ∧
    ((automateDeployment (some "111111111111") (some "222222222222")
        (some "333333333333") "" "f" "w").events.all
          (fun e => ! Event.patchesRoles e) = true ∧
     (automateDeployment (some "111111111111") (some "222222222222")
        (some "333333333333") "" "f" "w").events.getLast? =
       some (Event.printMsg
         "Something went wrong - no Key ARN from the CDK Pipeline deployment") ∧
     Event.cdkDeploy "FrontEndPipelineDeploymentStack" ∉
       (automateDeployment (some "111111111111") (some "222222222222")
         (some "333333333333") "" "f" "w").events ∧
     Event.cdkDeploy "WebsitePipelineStack" ∉
       (automateDeployment (some "111111111111") (some "222222222222")
         (some "333333333333") "" "f" "w").events) :=
  ⟨⟨rfl, rfl, rfl⟩,
   C2_keyArn_guard (some "111111111111") (some "222222222222") (some "333333333333")
     "f" "w" rfl rfl rfl⟩

end GIDating
